import Mathlib

/-!
Verification development for the playwright-pom-project repository.

The most substantive piece of logic in the repository is the login-response validator
(function validateLoginResponse in the API helper module), the fixture
lookups (getUserCredentials, getEnvironmentConfig), the contact-form fill
orchestration (ContactPage.fillContactForm), the probe-style visibility
helpers (BaseComponent.isVisible, BaseComponent.isElementVisible,
BasePage.isElementVisible) and the swallow-timeout composite actions
(LoginPage.login, ContactPage.submitContactForm).

JavaScript values flowing through the validator are modelled by the
inductive type JSValue below; JavaScript truthiness, typeof, strict
equality on primitives, the in operator and property access are given
as executable functions mirroring the JavaScript semantics the source
relies on.  Date parsing (new Date(v).getTime()) is abstracted as a
parameter parseDate : JSValue -> Option Int returning none exactly when
the JavaScript date would be NaN, and the current clock as now : Int.
-/

/-- A JavaScript value as used by the validator: undefined, null,
booleans, numbers (all numbers appearing in the code are integers),
strings, and objects as ordered key-value field lists. -/
inductive JSValue where
  | vUndefined
  | vNull
  | vBool (b : Bool)
  | vNum (n : Int)
  | vStr (s : String)
  | vObj (fields : List (String × JSValue))

/-- Look up a key in the field list of an object (first match, as JavaScript
property tables have unique keys). -/
def fieldsFind : List (String × JSValue) → String → Option JSValue
  | [], _ => none
  | p :: rest, k => if p.1 == k then some p.2 else fieldsFind rest k

/-- Replace the value stored at a key, leaving other fields untouched
(models a JavaScript assignment to an existing property). -/
def fieldsSet : List (String × JSValue) → String → JSValue → List (String × JSValue)
  | [], _, _ => []
  | p :: rest, k, v => (if p.1 == k then (p.1, v) else p) :: fieldsSet rest k v

/-- The JavaScript in operator restricted to own properties: true when
the object carries the key. -/
def hasField (o : JSValue) (k : String) : Bool :=
  match o with
  | .vObj fs => (fieldsFind fs k).isSome
  | _ => false

/-- JavaScript property access o[k]: the stored value, or undefined when
the key is absent or the receiver is not an object. -/
def getField (o : JSValue) (k : String) : JSValue :=
  match o with
  | .vObj fs => (fieldsFind fs k).getD .vUndefined
  | _ => .vUndefined

/-- JavaScript property update o[k] = v on an object that already has
the key k; non-objects are returned unchanged. -/
def setField (o : JSValue) (k : String) (v : JSValue) : JSValue :=
  match o with
  | .vObj fs => .vObj (fieldsSet fs k v)
  | o => o

/-- JavaScript truthiness: undefined, null, false, 0 and the empty
string are falsy, everything else (objects included) is truthy. -/
def JSValue.truthy : JSValue → Bool
  | .vUndefined => false
  | .vNull => false
  | .vBool b => b
  | .vNum n => !(n == 0)
  | .vStr s => !(s == "")
  | .vObj _ => true

/-- JavaScript String.prototype.trim: strip leading and trailing
whitespace (modelled over the character list so it computes by
structural recursion). -/
def jsTrim (s : String) : String :=
  ⟨((s.data.dropWhile Char.isWhitespace).reverse.dropWhile Char.isWhitespace).reverse⟩

/-- The JavaScript typeof operator (null has typeof "object"). -/
def JSValue.typeOf : JSValue → String
  | .vUndefined => "undefined"
  | .vNull => "object"
  | .vBool _ => "boolean"
  | .vNum _ => "number"
  | .vStr _ => "string"
  | .vObj _ => "object"

/-- JavaScript strict equality on the values the validator compares:
structural on primitives; two object values compare by reference in
JavaScript, and the validator never relies on object identity, so the
object case is modelled as false (distinct references). -/
def jsEq : JSValue → JSValue → Bool
  | .vUndefined, .vUndefined => true
  | .vNull, .vNull => true
  | .vBool a, .vBool b => a == b
  | .vNum a, .vNum b => a == b
  | .vStr a, .vStr b => a == b
  | _, _ => false

/-- JavaScript string conversion as used in template literals. -/
def jsToString : JSValue → String
  | .vUndefined => "undefined"
  | .vNull => "null"
  | .vBool true => "true"
  | .vBool false => "false"
  | .vNum n => toString n
  | .vStr s => s
  | .vObj _ => "[object Object]"

/-- The shape of a response handed to the validator: numeric HTTP status
and parsed JSON body (source: makeApiRequest builds this record). -/
structure ApiResponse where
  status : Int
  body : JSValue

/-- The validation record built by validateLoginResponse:
{ isValid, errors, warnings }. -/
structure Validation where
  isValid : Bool
  errors : List String
  warnings : List String
  deriving DecidableEq

/-- Source lines 393-396: status must be 200, otherwise one error (this
branch also clears isValid). -/
def statusErrors (status : Int) : List String :=
  if status == 200 then [] else ["Expected status 200, got " ++ toString status]

/-- Source line 402: the required top-level fields, in check order. -/
def requiredFields : List String := ["success", "message", "data"]

/-- Source lines 403-408: one error per absent top-level required field
(each also clears isValid). -/
def missingFieldErrors (body : JSValue) : List String :=
  (requiredFields.filter (fun f => !(hasField body f))).map
    (fun f => "Missing required field: " ++ f)

/-- Source lines 411-414: body.success must be strictly true (also
clears isValid on mismatch). -/
def successErrors (body : JSValue) : List String :=
  if jsEq (getField body "success") (.vBool true) then []
  else ["Expected success to be true, got " ++ jsToString (getField body "success")]

/-- Source lines 417-420: body.message must be a string with non-blank
trim (also clears isValid on violation). -/
def messageErrors (body : JSValue) : List String :=
  match getField body "message" with
  | .vStr s => if jsTrim s == "" then ["Message field should be a non-empty string"] else []
  | _ => ["Message field should be a non-empty string"]

/-- Source line 424: the required fields of body.data, in check order. -/
def dataRequiredFields : List String := ["user", "access_token", "access_token_expire_at"]

/-- Source lines 425-430: one error per absent data field (each also
clears isValid). -/
def dataFieldErrors (data : JSValue) : List String :=
  (dataRequiredFields.filter (fun f => !(hasField data f))).map
    (fun f => "Missing required data field: " ++ f)

/-- Source line 434: the required fields of body.data.user, in check
order. -/
def userRequiredFields : List String :=
  ["id", "name", "email", "is_active", "created_at", "updated_at"]

/-- Source lines 435-440: one error per absent user field (each also
clears isValid). -/
def userFieldErrors (user : JSValue) : List String :=
  (userRequiredFields.filter (fun f => !(hasField user f))).map
    (fun f => "Missing required user field: " ++ f)

/-- Source lines 443-445: a truthy, non-numeric user id pushes an error
WITHOUT clearing isValid (the source omits the isValid assignment in
this branch). -/
def userIdErrors (user : JSValue) : List String :=
  let uid := getField user "id"
  if uid.truthy && !(uid.typeOf == "number") then ["User ID should be a number"] else []

/-- Source lines 447-449: a truthy, non-string user email pushes an
error WITHOUT clearing isValid. -/
def userEmailErrors (user : JSValue) : List String :=
  let em := getField user "email"
  if em.truthy && !(em.typeOf == "string") then ["User email should be a string"] else []

/-- Source line 451: the enumerated values accepted for is_active. -/
def isActiveAllowed : List JSValue := [.vNum 0, .vNum 1, .vBool true, .vBool false]

/-- Source lines 451-453: a truthy is_active outside the allowed set
pushes a warning only. -/
def isActiveWarnings (user : JSValue) : List String :=
  let a := getField user "is_active"
  if a.truthy && !(isActiveAllowed.any (fun x => jsEq x a)) then
    ["User is_active should be 0, 1, true, or false"]
  else []

/-- Source lines 457-459: expected-email mismatch pushes an error
WITHOUT clearing isValid. -/
def expectedEmailErrors (user expectedUser : JSValue) : List String :=
  let ee := getField expectedUser "email"
  if ee.truthy && !(jsEq (getField user "email") ee) then
    ["Expected email " ++ jsToString ee ++ ", got " ++ jsToString (getField user "email")]
  else []

/-- Source lines 461-463: expected-name mismatch pushes a warning. -/
def expectedNameWarnings (user expectedUser : JSValue) : List String :=
  let en := getField expectedUser "name"
  if en.truthy && !(jsEq (getField user "name") en) then
    ["Expected name " ++ jsToString en ++ ", got " ++ jsToString (getField user "name")]
  else []

/-- Source lines 468-470: a defined, non-string access token pushes a
warning. -/
def accessTokenWarnings (data : JSValue) : List String :=
  let t := getField data "access_token"
  if !(jsEq t .vUndefined) && !(t.typeOf == "string") then
    ["Access token should be a string"]
  else []

/-- Source lines 473-476: a truthy expiry value that does not parse as a
date pushes an error WITHOUT clearing isValid. -/
def expiryErrors (parseDate : JSValue → Option Int) (data : JSValue) : List String :=
  let e := getField data "access_token_expire_at"
  if e.truthy then
    match parseDate e with
    | none => ["Invalid access_token_expire_at date format"]
    | some _ => []
  else []

/-- Source lines 477-479: a parseable expiry at or before the current
time pushes a warning only. -/
def expiryWarnings (parseDate : JSValue → Option Int) (now : Int) (data : JSValue) :
    List String :=
  let e := getField data "access_token_expire_at"
  if e.truthy then
    match parseDate e with
    | none => []
    | some t => if t ≤ now then ["Access token appears to be expired"] else []
  else []

/-- Source lines 385-484, validateLoginResponse: the validation record is
only ever mutated by errors.push, warnings.push and isValid = false, so
its final errors and warnings are the in-order concatenation of the
pushes of each check, and its final isValid is the conjunction of exactly the
checks whose branches assign isValid = false (the user-id type, email
type, expected-email and date-format branches push errors without
touching isValid).  The whole data block is guarded by truthiness of
body.data (line 423) and the user block by truthiness of body.data.user
(line 433); expected-user checks run only when expectedUser is truthy
(line 456, default null). -/
def validateLoginResponse (parseDate : JSValue → Option Int) (now : Int)
    (response : ApiResponse) (expectedUser : JSValue) : Validation :=
  let body := response.body
  let data := getField body "data"
  let user := getField data "user"
  let userErrs :=
    if user.truthy then
      userFieldErrors user ++ userIdErrors user ++ userEmailErrors user ++
        (if expectedUser.truthy then expectedEmailErrors user expectedUser else [])
    else []
  let userWarns :=
    if user.truthy then
      isActiveWarnings user ++
        (if expectedUser.truthy then expectedNameWarnings user expectedUser else [])
    else []
  let dataErrs :=
    if data.truthy then dataFieldErrors data ++ userErrs ++ expiryErrors parseDate data
    else []
  let dataWarns :=
    if data.truthy then userWarns ++ accessTokenWarnings data ++ expiryWarnings parseDate now data
    else []
  { isValid :=
      (statusErrors response.status).isEmpty && (missingFieldErrors body).isEmpty &&
        (successErrors body).isEmpty && (messageErrors body).isEmpty &&
        (!data.truthy || ((dataFieldErrors data).isEmpty &&
          (!user.truthy || (userFieldErrors user).isEmpty)))
    errors :=
      statusErrors response.status ++ missingFieldErrors body ++ successErrors body ++
        messageErrors body ++ dataErrs
    warnings := dataWarns }

/-- The user record of the well-formed example scenario in the spec. -/
def adminUser : JSValue := .vObj
  [("id", .vNum 1), ("name", .vStr "Admin"), ("email", .vStr "admin@admin.com"),
   ("is_active", .vNum 1), ("created_at", .vStr "2024-01-01T00:00:00.000000Z"),
   ("updated_at", .vStr "2024-01-01T00:00:00.000000Z")]

/-- The data record of the well-formed example scenario in the spec. -/
def goodData : JSValue := .vObj
  [("user", adminUser), ("access_token", .vStr "abc"),
   ("access_token_expire_at", .vStr "2999-01-01T00:00:00.000000Z")]

/-- The body of the well-formed example scenario in the spec. -/
def goodBody : JSValue := .vObj
  [("success", .vBool true), ("message", .vStr "Successfully logged in."),
   ("data", goodData)]

/-- The expected-user argument of the example scenario in the spec. -/
def expectedAdmin : JSValue := .vObj [("email", .vStr "admin@admin.com")]

/-- A concrete date parser for witnesses: recognises the expiry string of
the example as the instant 1 and nothing else. -/
def parseDateSample : JSValue → Option Int :=
  fun v => if jsEq v (.vStr "2999-01-01T00:00:00.000000Z") then some 1 else none

/-- The example user record with its id replaced by the string "1": a
truthy, non-numeric id. -/
def strIdUser : JSValue := .vObj
  [("id", .vStr "1"), ("name", .vStr "Admin"), ("email", .vStr "admin@admin.com"),
   ("is_active", .vNum 1), ("created_at", .vStr "2024-01-01T00:00:00.000000Z"),
   ("updated_at", .vStr "2024-01-01T00:00:00.000000Z")]

/-- The example data record carrying strIdUser. -/
def strIdData : JSValue := .vObj
  [("user", strIdUser), ("access_token", .vStr "abc"),
   ("access_token_expire_at", .vStr "2999-01-01T00:00:00.000000Z")]

/-- The example body carrying strIdData. -/
def strIdBody : JSValue := .vObj
  [("success", .vBool true), ("message", .vStr "Successfully logged in."),
   ("data", strIdData)]

/-- The example body with the message key removed entirely. -/
def bodyNoMessage : JSValue := .vObj [("success", .vBool true), ("data", goodData)]

/-- Outcome of the raced waits inside a composite submit action: either
one of the raced conditions (success indicator, error indicator, URL
change) resolved first, or the race rejected because every condition
hit its timeout. -/
inductive RaceOutcome where
  | winner (index : Nat)
  | timedOut

/-- Promise.race over the outcome waits: resolves when some condition
resolved, rejects with the first timeout error otherwise. -/
def promiseRace (o : RaceOutcome) : Except String Unit :=
  match o with
  | .winner _ => .ok ()
  | .timedOut => .error "TimeoutError"

/-- A JavaScript try block whose catch clause is empty: any error from
the body is swallowed and the method continues normally. -/
def tryCatchSwallow (action : Except String Unit) : Except String Unit :=
  match action with
  | .ok x => .ok x
  | .error _ => .ok ()

namespace LoginPage

/-- Source lines 129-139 of LoginPage.login: after the click, the
raced waits are wrapped in try-catch with an empty catch clause, and
the method body ends there, returning undefined (unit) with no success
or failure signal. -/
def loginWaitPhase (o : RaceOutcome) : Except String Unit :=
  tryCatchSwallow (promiseRace o)

end LoginPage

namespace ContactPage

/-- Source lines 244-252 of ContactPage.submitContactForm: the raced
success and error waits are wrapped in try-catch with an empty catch
clause, and the method body ends there, returning undefined (unit). -/
def submitWaitPhase (o : RaceOutcome) : Except String Unit :=
  tryCatchSwallow (promiseRace o)

end ContactPage

/-- Outcome of a waitFor / waitForSelector visible-state call on a
selector: the selector reached the visible state within the timeout,
or the wait timed out. -/
inductive WaitResult where
  | becameVisible
  | timedOut

/-- The wait-for-visible primitive of the engine: resolves on visibility,
rejects with a timeout error otherwise. -/
def waitForState (w : WaitResult) : Except String Unit :=
  match w with
  | .becameVisible => .ok ()
  | .timedOut => .error "TimeoutError: waiting for selector to be visible"

namespace BaseComponent

/-- Source lines 83-90 of base.component.js: try waitFor visible then
return true, catch anything and return false. -/
def isElementVisible (w : WaitResult) : Except String Bool :=
  match waitForState w with
  | .ok _ => .ok true
  | .error _ => .ok false

/-- Source lines 32-40 of base.component.js: with no root selector the
method returns true immediately; otherwise try waitFor visible and
return true, catch anything and return false. -/
def isVisible (rootSelector : Option String) (w : WaitResult) : Except String Bool :=
  match rootSelector with
  | none => .ok true
  | some _ =>
    match waitForState w with
    | .ok _ => .ok true
    | .error _ => .ok false

end BaseComponent

namespace BasePage

/-- Source lines 69-76 of the BasePage module: try waitForSelector with
state visible then return true, catch anything and return false. -/
def isElementVisible (w : WaitResult) : Except String Bool :=
  match waitForState w with
  | .ok _ => .ok true
  | .error _ => .ok false

end BasePage

/-- The argument record of ContactPage.fillContactForm; absent fields
are the JavaScript undefined. -/
structure ContactData where
  firstName : JSValue
  lastName : JSValue
  email : JSValue
  phone : JSValue
  subject : JSValue
  message : JSValue
  inquiryType : JSValue
  attachment : JSValue
  acceptPrivacy : JSValue
  subscribeNewsletter : JSValue

/-- One helper invocation performed by fillContactForm, with the value
it was handed. -/
inductive FormAction where
  | fillFirstName (v : JSValue)
  | fillLastName (v : JSValue)
  | fillEmail (v : JSValue)
  | fillPhone (v : JSValue)
  | fillSubject (v : JSValue)
  | fillMessage (v : JSValue)
  | selectInquiryType (v : JSValue)
  | uploadAttachment (v : JSValue)
  | checkPrivacyPolicy (v : JSValue)
  | checkNewsletter (v : JSValue)

namespace ContactPage

/-- Source lines 216-234 of contact.page.js: each text-like field is
filled only when its value is truthy; the two checkbox fields are acted
on whenever they are not strictly undefined.  The returned list is the
sequence of helper invocations in program order. -/
def fillContactForm (d : ContactData) : List FormAction :=
  (if d.firstName.truthy then [.fillFirstName d.firstName] else []) ++
  (if d.lastName.truthy then [.fillLastName d.lastName] else []) ++
  (if d.email.truthy then [.fillEmail d.email] else []) ++
  (if d.phone.truthy then [.fillPhone d.phone] else []) ++
  (if d.subject.truthy then [.fillSubject d.subject] else []) ++
  (if d.message.truthy then [.fillMessage d.message] else []) ++
  (if d.inquiryType.truthy then [.selectInquiryType d.inquiryType] else []) ++
  (if d.attachment.truthy then [.uploadAttachment d.attachment] else []) ++
  (if !(jsEq d.acceptPrivacy .vUndefined) then [.checkPrivacyPolicy d.acceptPrivacy] else []) ++
  (if !(jsEq d.subscribeNewsletter .vUndefined) then [.checkNewsletter d.subscribeNewsletter]
   else [])

end ContactPage

/-- The validUser fixture record (test-data module, lines 658-664). -/
def validUserCreds : JSValue := .vObj
  [("username", .vStr "testuser@example.com"), ("password", .vStr "TestPass123!"),
   ("firstName", .vStr "Test"), ("lastName", .vStr "User"), ("fullName", .vStr "Test User")]

/-- The invalidUser fixture record (lines 666-671). -/
def invalidUserCreds : JSValue := .vObj
  [("username", .vStr "invalid@example.com"), ("password", .vStr "wrongpassword"),
   ("firstName", .vStr "Invalid"), ("lastName", .vStr "User")]

/-- The adminUser fixture record (lines 673-679). -/
def adminUserCreds : JSValue := .vObj
  [("username", .vStr "admin@example.com"), ("password", .vStr "AdminPass123!"),
   ("firstName", .vStr "Admin"), ("lastName", .vStr "User"),
   ("role", .vStr "administrator")]

/-- The emptyCredentials fixture record (lines 681-684). -/
def emptyCredentials : JSValue := .vObj
  [("username", .vStr ""), ("password", .vStr "")]

/-- The testUsers record (lines 657-685). -/
def testUsers : JSValue := .vObj
  [("validUser", validUserCreds), ("invalidUser", invalidUserCreds),
   ("adminUser", adminUserCreds), ("emptyCredentials", emptyCredentials)]

/-- Source lines 739-741: testUsers[userType] falling back to
testUsers.validUser via the JavaScript or-operator when the lookup is
falsy (absent keys give undefined). -/
def getUserCredentials (userType : String) : JSValue :=
  let v := getField testUsers userType
  if v.truthy then v else getField testUsers "validUser"

/-- The dev environment record (lines 689-692). -/
def devConfig : JSValue := .vObj
  [("baseUrl", .vStr "http://localhost:3000"), ("apiUrl", .vStr "http://localhost:3001/api")]

/-- The staging environment record (lines 694-697). -/
def stagingConfig : JSValue := .vObj
  [("baseUrl", .vStr "https://staging.example.com"),
   ("apiUrl", .vStr "https://staging-api.example.com")]

/-- The production environment record (lines 699-702). -/
def productionConfig : JSValue := .vObj
  [("baseUrl", .vStr "https://example.com"), ("apiUrl", .vStr "https://api.example.com")]

/-- The environments record (lines 688-703). -/
def environments : JSValue := .vObj
  [("dev", devConfig), ("staging", stagingConfig), ("production", productionConfig)]

/-- Source lines 748-750: environments[env] falling back to
environments.dev via the JavaScript or-operator. -/
def getEnvironmentConfig (env : String) : JSValue :=
  let v := getField environments env
  if v.truthy then v else getField environments "dev"

/-- The allowed is_active values as a boolean predicate: falsy, or one
of the enumerated values of line 451. -/
def isActiveOk (a : JSValue) : Bool :=
  !a.truthy || isActiveAllowed.any (fun x => jsEq x a)

theorem getField_eq_undefined_of_not_hasField (o : JSValue) (k : String)
    (h : hasField o k = false) : getField o k = .vUndefined := by
  cases o with
  | vObj fs =>
    simp only [hasField] at h
    simp only [getField]
    cases hf : fieldsFind fs k with
    | none => rfl
    | some x => rw [hf] at h; simp at h
  | vUndefined => rfl
  | vNull => rfl
  | vBool b => rfl
  | vNum n => rfl
  | vStr s => rfl

theorem fieldsFind_fieldsSet_ne (fs : List (String × JSValue)) (k k' : String) (v : JSValue)
    (h : k' ≠ k) : fieldsFind (fieldsSet fs k v) k' = fieldsFind fs k' := by
  induction fs with
  | nil => rfl
  | cons p rest ih =>
    simp only [fieldsSet, fieldsFind]
    by_cases hq : p.1 = k'
    · have hk : ¬ p.1 = k := by rw [hq]; exact h
      simp [hk, hq, h]
    · by_cases hp : p.1 = k
      · have hkk : ¬ k = k' := fun he => h he.symm
        simp [hp, hq, hkk, ih]
      · simp [hp, hq, ih]

theorem fieldsFind_fieldsSet_eq (fs : List (String × JSValue)) (k : String) (v : JSValue) :
    fieldsFind (fieldsSet fs k v) k = (fieldsFind fs k).map (fun _ => v) := by
  induction fs with
  | nil => rfl
  | cons p rest ih =>
    by_cases hp : p.1 = k
    · simp [fieldsSet, fieldsFind, hp]
    · simp [fieldsSet, fieldsFind, hp, ih]

theorem getField_setField_ne (o : JSValue) (k k' : String) (v : JSValue) (h : k' ≠ k) :
    getField (setField o k v) k' = getField o k' := by
  cases o <;> simp [getField, setField]
  rename_i fs
  rw [fieldsFind_fieldsSet_ne fs k k' v h]

theorem getField_setField_eq (o : JSValue) (k : String) (v : JSValue)
    (h : hasField o k = true) : getField (setField o k v) k = v := by
  cases o <;> simp_all [hasField, getField, setField]
  rename_i fs
  rw [fieldsFind_fieldsSet_eq fs k v]
  obtain ⟨x, hx⟩ := Option.isSome_iff_exists.mp h
  simp [hx]

theorem hasField_setField (o : JSValue) (k k' : String) (v : JSValue) :
    hasField (setField o k v) k' = hasField o k' := by
  cases o <;> simp [hasField, setField]
  rename_i fs
  by_cases h : k' = k
  · subst h
    rw [fieldsFind_fieldsSet_eq fs k' v]
    simp
  · rw [fieldsFind_fieldsSet_ne fs k k' v h]

theorem truthy_setField (o : JSValue) (k : String) (v : JSValue) :
    (setField o k v).truthy = o.truthy := by
  cases o <;> rfl

theorem missingFieldErrors_setField (b : JSValue) (k : String) (x : JSValue) :
    missingFieldErrors (setField b k x) = missingFieldErrors b := by
  simp [missingFieldErrors, requiredFields, List.filter, hasField_setField]

theorem dataFieldErrors_setField (d : JSValue) (k : String) (x : JSValue) :
    dataFieldErrors (setField d k x) = dataFieldErrors d := by
  simp [dataFieldErrors, dataRequiredFields, List.filter, hasField_setField]

theorem userFieldErrors_setField (u : JSValue) (k : String) (x : JSValue) :
    userFieldErrors (setField u k x) = userFieldErrors u := by
  simp [userFieldErrors, userRequiredFields, List.filter, hasField_setField]

theorem successErrors_setField (b : JSValue) (k : String) (x : JSValue)
    (h : "success" ≠ k) : successErrors (setField b k x) = successErrors b := by
  simp [successErrors, getField_setField_ne b k "success" x h]

theorem messageErrors_setField (b : JSValue) (k : String) (x : JSValue)
    (h : "message" ≠ k) : messageErrors (setField b k x) = messageErrors b := by
  simp [messageErrors, getField_setField_ne b k "message" x h]

theorem userIdErrors_setField (u : JSValue) (k : String) (x : JSValue)
    (h : "id" ≠ k) : userIdErrors (setField u k x) = userIdErrors u := by
  simp [userIdErrors, getField_setField_ne u k "id" x h]

theorem userEmailErrors_setField (u : JSValue) (k : String) (x : JSValue)
    (h : "email" ≠ k) : userEmailErrors (setField u k x) = userEmailErrors u := by
  simp [userEmailErrors, getField_setField_ne u k "email" x h]

theorem isActiveWarnings_setField (u : JSValue) (k : String) (x : JSValue)
    (h : "is_active" ≠ k) : isActiveWarnings (setField u k x) = isActiveWarnings u := by
  simp [isActiveWarnings, getField_setField_ne u k "is_active" x h]

theorem expectedEmailErrors_setField (u : JSValue) (k : String) (x eu : JSValue)
    (h : "email" ≠ k) : expectedEmailErrors (setField u k x) eu = expectedEmailErrors u eu := by
  simp [expectedEmailErrors, getField_setField_ne u k "email" x h]

theorem expectedNameWarnings_setField (u : JSValue) (k : String) (x eu : JSValue)
    (h : "name" ≠ k) : expectedNameWarnings (setField u k x) eu = expectedNameWarnings u eu := by
  simp [expectedNameWarnings, getField_setField_ne u k "name" x h]

theorem accessTokenWarnings_setField (d : JSValue) (k : String) (x : JSValue)
    (h : "access_token" ≠ k) :
    accessTokenWarnings (setField d k x) = accessTokenWarnings d := by
  simp [accessTokenWarnings, getField_setField_ne d k "access_token" x h]

theorem expiryErrors_setField (pd : JSValue → Option Int) (d : JSValue) (k : String)
    (x : JSValue) (h : "access_token_expire_at" ≠ k) :
    expiryErrors pd (setField d k x) = expiryErrors pd d := by
  simp [expiryErrors, getField_setField_ne d k "access_token_expire_at" x h]

theorem expiryWarnings_setField (pd : JSValue → Option Int) (now : Int) (d : JSValue)
    (k : String) (x : JSValue) (h : "access_token_expire_at" ≠ k) :
    expiryWarnings pd now (setField d k x) = expiryWarnings pd now d := by
  simp [expiryWarnings, getField_setField_ne d k "access_token_expire_at" x h]

theorem missingFieldErrors_eq_nil (body : JSValue)
    (h1 : hasField body "success" = true) (h2 : hasField body "message" = true)
    (h3 : hasField body "data" = true) : missingFieldErrors body = [] := by
  simp [missingFieldErrors, requiredFields, List.filter, h1, h2, h3]

theorem missingFieldErrors_only_message (body : JSValue)
    (h1 : hasField body "success" = true) (h2 : hasField body "message" = false)
    (h3 : hasField body "data" = true) :
    missingFieldErrors body = ["Missing required field: message"] := by
  simp [missingFieldErrors, requiredFields, List.filter, h1, h2, h3]

theorem successErrors_eq_nil (body : JSValue)
    (h : getField body "success" = .vBool true) : successErrors body = [] := by
  simp [successErrors, h, jsEq]

theorem messageErrors_eq_nil (body : JSValue) (m : String)
    (h : getField body "message" = .vStr m) (hm : jsTrim m ≠ "") :
    messageErrors body = [] := by
  simp [messageErrors, h, hm]

theorem messageErrors_of_undefined (body : JSValue)
    (h : getField body "message" = .vUndefined) :
    messageErrors body = ["Message field should be a non-empty string"] := by
  simp [messageErrors, h]

theorem dataFieldErrors_eq_nil (d : JSValue)
    (h1 : hasField d "user" = true) (h2 : hasField d "access_token" = true)
    (h3 : hasField d "access_token_expire_at" = true) : dataFieldErrors d = [] := by
  simp [dataFieldErrors, dataRequiredFields, List.filter, h1, h2, h3]

theorem userFieldErrors_eq_nil (u : JSValue)
    (h1 : hasField u "id" = true) (h2 : hasField u "name" = true)
    (h3 : hasField u "email" = true) (h4 : hasField u "is_active" = true)
    (h5 : hasField u "created_at" = true) (h6 : hasField u "updated_at" = true) :
    userFieldErrors u = [] := by
  simp [userFieldErrors, userRequiredFields, List.filter, h1, h2, h3, h4, h5, h6]

theorem userIdErrors_eq_nil (u : JSValue)
    (h : (getField u "id").typeOf = "number") : userIdErrors u = [] := by
  simp [userIdErrors, h]

theorem userEmailErrors_eq_nil (u : JSValue)
    (h : (getField u "email").typeOf = "string") : userEmailErrors u = [] := by
  simp [userEmailErrors, h]

theorem isActiveWarnings_eq_nil (u : JSValue)
    (h : isActiveOk (getField u "is_active") = true) : isActiveWarnings u = [] := by
  simp only [isActiveOk, Bool.or_eq_true, Bool.not_eq_true'] at h
  simp only [isActiveWarnings]
  rcases h with h | h
  · simp [h]
  · simp [h]

theorem expectedEmailErrors_eq_nil (u eu : JSValue)
    (h : jsEq (getField u "email") (getField eu "email") = true) :
    expectedEmailErrors u eu = [] := by
  simp [expectedEmailErrors, h]

theorem expectedNameWarnings_eq_nil (u eu : JSValue)
    (h : (getField eu "name").truthy = false) : expectedNameWarnings u eu = [] := by
  simp [expectedNameWarnings, h]

theorem accessTokenWarnings_eq_nil (d : JSValue)
    (h : (getField d "access_token").typeOf = "string") :
    accessTokenWarnings d = [] := by
  simp [accessTokenWarnings, h]

theorem expiryErrors_eq_nil (pd : JSValue → Option Int) (d : JSValue) (t : Int)
    (h : pd (getField d "access_token_expire_at") = some t) :
    expiryErrors pd d = [] := by
  simp only [expiryErrors, h]
  split <;> rfl

theorem expiryWarnings_eq_nil_of_future (pd : JSValue → Option Int) (now t : Int)
    (d : JSValue) (h : pd (getField d "access_token_expire_at") = some t)
    (hn : now < t) : expiryWarnings pd now d = [] := by
  have hnot : ¬ (t ≤ now) := by omega
  simp only [expiryWarnings, h]
  split
  · simp [hnot]
  · rfl

theorem expiryWarnings_of_past (pd : JSValue → Option Int) (now t : Int) (d : JSValue)
    (h : pd (getField d "access_token_expire_at") = some t)
    (he : (getField d "access_token_expire_at").truthy = true) (hp : t ≤ now) :
    expiryWarnings pd now d = ["Access token appears to be expired"] := by
  simp [expiryWarnings, h, he, hp]

/-- C1: the claimed invariant (isValid is true exactly when the error
sequence is empty, every error-appending branch clearing isValid) is
violated by the code: at status 200 with a body that is well-formed
except that user.id is the string "1", the user-id type check appends
an error without clearing isValid, so the validator returns isValid
true together with a non-empty error sequence. -/
theorem validateLoginResponse_error_with_isValid_true :
    (validateLoginResponse parseDateSample 0 ⟨200, strIdBody⟩ .vNull).isValid = true ∧
    (validateLoginResponse parseDateSample 0 ⟨200, strIdBody⟩ .vNull).errors =
      ["User ID should be a number"] ∧
    (validateLoginResponse parseDateSample 0 ⟨200, strIdBody⟩ .vNull).errors ≠ [] := by
  refine ⟨by decide, by decide, by decide⟩

/-- C2 counterexample: at status 200 with a body that is well-formed
except that it lacks the message key entirely, the error sequence is
not the claimed singleton: the absent message also fails the
message-type check, so two errors are produced. -/
theorem validateLoginResponse_missing_message_not_singleton :
    (validateLoginResponse parseDateSample 0 ⟨200, bodyNoMessage⟩ .vNull).errors ≠
      ["Missing required field: message"] := by
  decide

/-- C2 (amended): for every response with status 200 whose body is
well-formed except that it lacks the message key entirely,
validateLoginResponse returns isValid false, the two-element error
sequence [Missing required field: message, Message field should be a
non-empty string] (the absent message also fails the message-type
check), and an empty warnings sequence. -/
theorem validateLoginResponse_missing_message (parseDate : JSValue → Option Int)
    (now t : Int) (body data user : JSValue)
    (hdeq : getField body "data" = data)
    (hueq : getField data "user" = user)
    (hs1 : hasField body "success" = true)
    (hs2 : hasField body "message" = false)
    (hs3 : hasField body "data" = true)
    (hsv : getField body "success" = .vBool true)
    (hdt : data.truthy = true)
    (hd1 : hasField data "user" = true)
    (hd2 : hasField data "access_token" = true)
    (hd3 : hasField data "access_token_expire_at" = true)
    (hut : user.truthy = true)
    (hu1 : hasField user "id" = true) (hu2 : hasField user "name" = true)
    (hu3 : hasField user "email" = true) (hu4 : hasField user "is_active" = true)
    (hu5 : hasField user "created_at" = true) (hu6 : hasField user "updated_at" = true)
    (hid : (getField user "id").typeOf = "number")
    (hem : (getField user "email").typeOf = "string")
    (hac : isActiveOk (getField user "is_active") = true)
    (htk : (getField data "access_token").typeOf = "string")
    (hex : parseDate (getField data "access_token_expire_at") = some t)
    (hfu : now < t) :
    validateLoginResponse parseDate now ⟨200, body⟩ .vNull =
      ⟨false,
       ["Missing required field: message", "Message field should be a non-empty string"],
       []⟩ := by
  have e1 : statusErrors 200 = [] := rfl
  have e2 := missingFieldErrors_only_message body hs1 hs2 hs3
  have e3 := successErrors_eq_nil body hsv
  have e4 := messageErrors_of_undefined body
    (getField_eq_undefined_of_not_hasField body "message" hs2)
  have e5 := dataFieldErrors_eq_nil data hd1 hd2 hd3
  have e6 := userFieldErrors_eq_nil user hu1 hu2 hu3 hu4 hu5 hu6
  have e7 := userIdErrors_eq_nil user hid
  have e8 := userEmailErrors_eq_nil user hem
  have e9 := isActiveWarnings_eq_nil user hac
  have e10 := accessTokenWarnings_eq_nil data htk
  have e11 := expiryErrors_eq_nil parseDate data t hex
  have e12 := expiryWarnings_eq_nil_of_future parseDate now t data hex hfu
  simp [validateLoginResponse, hdeq, hueq, hdt, hut, e1, e2, e3, e4, e5, e6, e7, e8, e9,
    e10, e11, e12, JSValue.truthy]

/-- C2 witness: the amended theorem applied to the concrete example
body without its message field. -/
theorem validateLoginResponse_missing_message_witness :
    parseDateSample (getField goodData "access_token_expire_at") = some 1 ∧ (0 : Int) < 1 ∧
    validateLoginResponse parseDateSample 0 ⟨200, bodyNoMessage⟩ .vNull =
      ⟨false,
       ["Missing required field: message", "Message field should be a non-empty string"],
       []⟩ :=
  ⟨rfl, by decide,
    validateLoginResponse_missing_message parseDateSample 0 1 bodyNoMessage goodData
      adminUser rfl rfl rfl rfl rfl rfl rfl rfl rfl rfl rfl rfl rfl rfl rfl rfl rfl rfl
      rfl rfl rfl rfl (by decide)⟩

/-- C3: for the fully well-formed example input (status 200, the
example body, expected user with the matching email), evaluated with
any date parser that parses the expiry string to an instant strictly
after the current time, validateLoginResponse returns isValid true
with empty errors and empty warnings. -/
theorem validateLoginResponse_wellformed_example (parseDate : JSValue → Option Int)
    (now t : Int)
    (hp : parseDate (.vStr "2999-01-01T00:00:00.000000Z") = some t) (hn : now < t) :
    validateLoginResponse parseDate now ⟨200, goodBody⟩ expectedAdmin = ⟨true, [], []⟩ := by
  have e11 : expiryErrors parseDate (getField goodBody "data") = [] :=
    expiryErrors_eq_nil parseDate (getField goodBody "data") t hp
  have e12 : expiryWarnings parseDate now (getField goodBody "data") = [] :=
    expiryWarnings_eq_nil_of_future parseDate now t (getField goodBody "data") hp hn
  have c1 : statusErrors 200 = [] := rfl
  have c2 : missingFieldErrors goodBody = [] := rfl
  have c3 : successErrors goodBody = [] := rfl
  have c4 : messageErrors goodBody = [] := rfl
  have c5 : dataFieldErrors (getField goodBody "data") = [] := rfl
  have c6 : userFieldErrors (getField (getField goodBody "data") "user") = [] := rfl
  have c7 : userIdErrors (getField (getField goodBody "data") "user") = [] := rfl
  have c8 : userEmailErrors (getField (getField goodBody "data") "user") = [] := rfl
  have c9 : isActiveWarnings (getField (getField goodBody "data") "user") = [] := rfl
  have c10 : expectedEmailErrors (getField (getField goodBody "data") "user")
      expectedAdmin = [] := rfl
  have c11 : expectedNameWarnings (getField (getField goodBody "data") "user")
      expectedAdmin = [] := rfl
  have c12 : accessTokenWarnings (getField goodBody "data") = [] := rfl
  have t1 : (getField goodBody "data").truthy = true := rfl
  have t2 : (getField (getField goodBody "data") "user").truthy = true := rfl
  have t3 : expectedAdmin.truthy = true := rfl
  simp [validateLoginResponse, c1, c2, c3, c4, c5, c6, c7, c8, c9, c10, c11, c12,
    e11, e12, t1, t2, t3]

/-- C4: for every otherwise fully well-formed response whose expiry
value parses to an instant at or before the current time,
validateLoginResponse returns isValid true, empty errors, and exactly
the token-expired warning: the past expiry contributes a warning and
never an error. -/
theorem validateLoginResponse_expired_token_warning (parseDate : JSValue → Option Int)
    (now t : Int) (body data user : JSValue) (m : String)
    (hdeq : getField body "data" = data)
    (hueq : getField data "user" = user)
    (hs1 : hasField body "success" = true)
    (hs2 : hasField body "message" = true)
    (hs3 : hasField body "data" = true)
    (hsv : getField body "success" = .vBool true)
    (hmv : getField body "message" = .vStr m)
    (hmt : jsTrim m ≠ "")
    (hdt : data.truthy = true)
    (hd1 : hasField data "user" = true)
    (hd2 : hasField data "access_token" = true)
    (hd3 : hasField data "access_token_expire_at" = true)
    (hut : user.truthy = true)
    (hu1 : hasField user "id" = true) (hu2 : hasField user "name" = true)
    (hu3 : hasField user "email" = true) (hu4 : hasField user "is_active" = true)
    (hu5 : hasField user "created_at" = true) (hu6 : hasField user "updated_at" = true)
    (hid : (getField user "id").typeOf = "number")
    (hem : (getField user "email").typeOf = "string")
    (hac : isActiveOk (getField user "is_active") = true)
    (htk : (getField data "access_token").typeOf = "string")
    (hex : parseDate (getField data "access_token_expire_at") = some t)
    (het : (getField data "access_token_expire_at").truthy = true)
    (hpast : t ≤ now) :
    validateLoginResponse parseDate now ⟨200, body⟩ .vNull =
      ⟨true, [], ["Access token appears to be expired"]⟩ := by
  have e1 : statusErrors 200 = [] := rfl
  have e2 := missingFieldErrors_eq_nil body hs1 hs2 hs3
  have e3 := successErrors_eq_nil body hsv
  have e4 := messageErrors_eq_nil body m hmv hmt
  have e5 := dataFieldErrors_eq_nil data hd1 hd2 hd3
  have e6 := userFieldErrors_eq_nil user hu1 hu2 hu3 hu4 hu5 hu6
  have e7 := userIdErrors_eq_nil user hid
  have e8 := userEmailErrors_eq_nil user hem
  have e9 := isActiveWarnings_eq_nil user hac
  have e10 := accessTokenWarnings_eq_nil data htk
  have e11 := expiryErrors_eq_nil parseDate data t hex
  have e12 := expiryWarnings_of_past parseDate now t data hex het hpast
  simp [validateLoginResponse, hdeq, hueq, hdt, hut, e1, e2, e3, e4, e5, e6, e7, e8, e9,
    e10, e11, e12, show JSValue.truthy .vNull = false from rfl]

/-- C4 witness: the theorem applied to the example body with the
current time 5, after the parsed expiry instant 1. -/
theorem validateLoginResponse_expired_token_warning_witness :
    parseDateSample (getField goodData "access_token_expire_at") = some 1 ∧ (1 : Int) ≤ 5 ∧
    validateLoginResponse parseDateSample 5 ⟨200, goodBody⟩ .vNull =
      ⟨true, [], ["Access token appears to be expired"]⟩ :=
  ⟨rfl, by decide,
    validateLoginResponse_expired_token_warning parseDateSample 5 1 goodBody goodData
      adminUser "Successfully logged in." rfl rfl rfl rfl rfl rfl rfl (by decide) rfl rfl
      rfl rfl rfl rfl rfl rfl rfl rfl rfl rfl rfl rfl rfl rfl rfl (by decide)⟩

/-- body.data.user.is_active := v, through nested property updates on a
body that carries the data and user objects. -/
def setIsActive (body v : JSValue) : JSValue :=
  setField body "data"
    (setField (getField body "data") "user"
      (setField (getField (getField body "data") "user") "is_active" v))

theorem truthy_of_hasField (o : JSValue) (k : String) (h : hasField o k = true) :
    o.truthy = true := by
  cases o <;> simp_all [hasField, JSValue.truthy]

/-- The validator on a body whose user.is_active was replaced by v: the
value v reaches only the is_active warning check, every other component
being that of the original body. -/
theorem validate_setIsActive (parseDate : JSValue → Option Int) (now status : Int)
    (body eu v : JSValue)
    (hd : hasField body "data" = true)
    (hu : hasField (getField body "data") "user" = true)
    (ha : hasField (getField (getField body "data") "user") "is_active" = true) :
    validateLoginResponse parseDate now ⟨status, setIsActive body v⟩ eu =
      ⟨(statusErrors status).isEmpty && (missingFieldErrors body).isEmpty &&
         (successErrors body).isEmpty && (messageErrors body).isEmpty &&
         ((dataFieldErrors (getField body "data")).isEmpty &&
           (userFieldErrors (getField (getField body "data") "user")).isEmpty),
       statusErrors status ++ missingFieldErrors body ++ successErrors body ++
         messageErrors body ++
         (dataFieldErrors (getField body "data") ++
           (userFieldErrors (getField (getField body "data") "user") ++
             userIdErrors (getField (getField body "data") "user") ++
             userEmailErrors (getField (getField body "data") "user") ++
             (if eu.truthy then
               expectedEmailErrors (getField (getField body "data") "user") eu
              else [])) ++
           expiryErrors parseDate (getField body "data")),
       (isActiveWarnings
           (setField (getField (getField body "data") "user") "is_active" v) ++
         (if eu.truthy then
           expectedNameWarnings (getField (getField body "data") "user") eu
          else [])) ++
         accessTokenWarnings (getField body "data") ++
         expiryWarnings parseDate now (getField body "data")⟩ := by
  have hdt : (getField body "data").truthy = true := truthy_of_hasField _ _ hu
  have hut : (getField (getField body "data") "user").truthy = true :=
    truthy_of_hasField _ _ ha
  have f1 : getField (setField body "data"
        (setField (getField body "data") "user"
          (setField (getField (getField body "data") "user") "is_active" v))) "data" =
      setField (getField body "data") "user"
        (setField (getField (getField body "data") "user") "is_active" v) :=
    getField_setField_eq body "data" _ hd
  have f2 : getField (setField (getField body "data") "user"
        (setField (getField (getField body "data") "user") "is_active" v)) "user" =
      setField (getField (getField body "data") "user") "is_active" v :=
    getField_setField_eq (getField body "data") "user" _ hu
  have g1 := missingFieldErrors_setField body "data"
    (setField (getField body "data") "user"
      (setField (getField (getField body "data") "user") "is_active" v))
  have g2 := successErrors_setField body "data"
    (setField (getField body "data") "user"
      (setField (getField (getField body "data") "user") "is_active" v)) (by decide)
  have g3 := messageErrors_setField body "data"
    (setField (getField body "data") "user"
      (setField (getField (getField body "data") "user") "is_active" v)) (by decide)
  have g4 := dataFieldErrors_setField (getField body "data") "user"
    (setField (getField (getField body "data") "user") "is_active" v)
  have g5 := userFieldErrors_setField (getField (getField body "data") "user")
    "is_active" v
  have g6 := userIdErrors_setField (getField (getField body "data") "user")
    "is_active" v (by decide)
  have g7 := userEmailErrors_setField (getField (getField body "data") "user")
    "is_active" v (by decide)
  have g8 := expectedEmailErrors_setField (getField (getField body "data") "user")
    "is_active" v eu (by decide)
  have g9 := expectedNameWarnings_setField (getField (getField body "data") "user")
    "is_active" v eu (by decide)
  have g10 := accessTokenWarnings_setField (getField body "data") "user"
    (setField (getField (getField body "data") "user") "is_active" v) (by decide)
  have g11 := expiryErrors_setField parseDate (getField body "data") "user"
    (setField (getField (getField body "data") "user") "is_active" v) (by decide)
  have g12 := expiryWarnings_setField parseDate now (getField body "data") "user"
    (setField (getField (getField body "data") "user") "is_active" v) (by decide)
  have tD : (setField (getField body "data") "user"
      (setField (getField (getField body "data") "user") "is_active" v)).truthy = true := by
    rw [truthy_setField]; exact hdt
  have tU : (setField (getField (getField body "data") "user") "is_active" v).truthy =
      true := by
    rw [truthy_setField]; exact hut
  simp [validateLoginResponse, setIsActive, f1, f2, g1, g2, g3, g4, g5, g6, g7, g8, g9,
    g10, g11, g12, tD, tU]

/-- C5: for every response whose body.data.user.is_active is set to 2
(a value outside 0, 1, true, false), the warnings of the validator contain
the is_active warning, while its error sequence and its isValid flag
are exactly those obtained with is_active set to the accepted value 1:
the deviation alone contributes no error and never breaks validity. -/
theorem validateLoginResponse_isActive_two (parseDate : JSValue → Option Int)
    (now status : Int) (body eu : JSValue)
    (hd : hasField body "data" = true)
    (hu : hasField (getField body "data") "user" = true)
    (ha : hasField (getField (getField body "data") "user") "is_active" = true) :
    "User is_active should be 0, 1, true, or false" ∈
      (validateLoginResponse parseDate now ⟨status, setIsActive body (.vNum 2)⟩ eu).warnings ∧
    (validateLoginResponse parseDate now ⟨status, setIsActive body (.vNum 2)⟩ eu).errors =
      (validateLoginResponse parseDate now ⟨status, setIsActive body (.vNum 1)⟩ eu).errors ∧
    (validateLoginResponse parseDate now ⟨status, setIsActive body (.vNum 2)⟩ eu).isValid =
      (validateLoginResponse parseDate now ⟨status, setIsActive body (.vNum 1)⟩ eu).isValid := by
  have h2 := validate_setIsActive parseDate now status body eu (.vNum 2) hd hu ha
  have h1 := validate_setIsActive parseDate now status body eu (.vNum 1) hd hu ha
  have hw2 : isActiveWarnings
      (setField (getField (getField body "data") "user") "is_active" (.vNum 2)) =
      ["User is_active should be 0, 1, true, or false"] := by
    have hg := getField_setField_eq (getField (getField body "data") "user") "is_active"
      (.vNum 2) ha
    simp [isActiveWarnings, hg, isActiveAllowed, jsEq, JSValue.truthy]
  refine ⟨?_, ?_, ?_⟩
  · rw [h2]
    simp [hw2]
  · rw [h1, h2]
  · rw [h1, h2]

/-- C5 witness: the theorem applied to the example body; is_active 2
yields the warning with unchanged errors and validity. -/
theorem validateLoginResponse_isActive_two_witness :
    hasField goodBody "data" = true ∧
    hasField (getField goodBody "data") "user" = true ∧
    hasField (getField (getField goodBody "data") "user") "is_active" = true ∧
    ("User is_active should be 0, 1, true, or false" ∈
      (validateLoginResponse parseDateSample 0 ⟨200, setIsActive goodBody (.vNum 2)⟩
        .vNull).warnings ∧
    (validateLoginResponse parseDateSample 0 ⟨200, setIsActive goodBody (.vNum 2)⟩
        .vNull).errors =
      (validateLoginResponse parseDateSample 0 ⟨200, setIsActive goodBody (.vNum 1)⟩
        .vNull).errors ∧
    (validateLoginResponse parseDateSample 0 ⟨200, setIsActive goodBody (.vNum 2)⟩
        .vNull).isValid =
      (validateLoginResponse parseDateSample 0 ⟨200, setIsActive goodBody (.vNum 1)⟩
        .vNull).isValid) :=
  ⟨rfl, rfl, rfl,
    validateLoginResponse_isActive_two parseDateSample 0 200 goodBody .vNull rfl rfl rfl⟩

/-- C3 witness: the theorem applied to a concrete parser sending the
expiry string to the instant 1, with the current time 0. -/
theorem validateLoginResponse_wellformed_example_witness :
    parseDateSample (.vStr "2999-01-01T00:00:00.000000Z") = some 1 ∧ (0 : Int) < 1 ∧
    validateLoginResponse parseDateSample 0 ⟨200, goodBody⟩ expectedAdmin =
      ⟨true, [], []⟩ :=
  ⟨rfl, by decide,
    validateLoginResponse_wellformed_example parseDateSample 0 1 rfl (by decide)⟩

/-- C6: when every raced outcome condition times out, the composite
submit-and-wait actions (LoginPage.login and
ContactPage.submitContactForm) swallow the rejection of the race in their
empty catch clause and return normally with unit, signalling neither
success nor failure to the caller. -/
theorem composite_submit_swallows_timeout :
    LoginPage.loginWaitPhase RaceOutcome.timedOut = Except.ok () ∧
    ContactPage.submitWaitPhase RaceOutcome.timedOut = Except.ok () :=
  ⟨rfl, rfl⟩

/-- C7: the visibility probes (BaseComponent.isElementVisible,
BaseComponent.isVisible on a rooted component, BasePage.isElementVisible)
convert a wait timeout into a normal false return, never propagating
the timeout error, and return true when the selector becomes visible
within the timeout. -/
theorem visibility_probes_never_throw (s : String) :
    BaseComponent.isElementVisible WaitResult.timedOut = Except.ok false ∧
    BaseComponent.isElementVisible WaitResult.becameVisible = Except.ok true ∧
    BaseComponent.isVisible (some s) WaitResult.timedOut = Except.ok false ∧
    BaseComponent.isVisible (some s) WaitResult.becameVisible = Except.ok true ∧
    BasePage.isElementVisible WaitResult.timedOut = Except.ok false ∧
    BasePage.isElementVisible WaitResult.becameVisible = Except.ok true :=
  ⟨rfl, rfl, rfl, rfl, rfl, rfl⟩

theorem append_ne_of_head_ne (p q s : String) (c d : Char) (tp tq : List Char)
    (hp : p.data = c :: tp) (hq : q.data = d :: tq) (hcd : c ≠ d) : p ++ s ≠ q := by
  intro h
  have h2 := congrArg String.data h
  rw [String.data_append, hp, hq, List.cons_append] at h2
  injection h2 with h3 h4
  exact hcd h3

theorem statusError_ne_missing_data (x : String) :
    "Expected status 200, got " ++ x ≠ "Missing required field: data" :=
  append_ne_of_head_ne _ _ x 'E' 'M' _ _ rfl rfl (by decide)

theorem successError_ne_missing_data (x : String) :
    "Expected success to be true, got " ++ x ≠ "Missing required field: data" :=
  append_ne_of_head_ne _ _ x 'E' 'M' _ _ rfl rfl (by decide)

theorem mem_statusErrors (status : Int) (x : String) (h : x ∈ statusErrors status) :
    ∃ s, x = "Expected status 200, got " ++ s := by
  unfold statusErrors at h
  split at h
  · simp at h
  · simp at h
    exact ⟨toString status, h⟩

theorem mem_successErrors (body : JSValue) (x : String) (h : x ∈ successErrors body) :
    ∃ s, x = "Expected success to be true, got " ++ s := by
  unfold successErrors at h
  split at h
  · simp at h
  · simp at h
    exact ⟨jsToString (getField body "success"), h⟩

theorem mem_messageErrors (body : JSValue) (x : String) (h : x ∈ messageErrors body) :
    x = "Message field should be a non-empty string" := by
  unfold messageErrors at h
  split at h <;> (try split at h) <;> simp_all

theorem missing_data_not_mem (body : JSValue) (hd : hasField body "data" = true) :
    "Missing required field: data" ∉ missingFieldErrors body := by
  cases h1 : hasField body "success" <;> cases h2 : hasField body "message" <;>
    simp [missingFieldErrors, requiredFields, List.filter, h1, h2, hd]

/-- C8: for a response whose body carries the data key with a falsy
value, the output of the validator has no contribution from the skipped
nested checks: errors are exactly the status, top-level-field, success
and message components, no missing-data error occurs, warnings are
empty, and when the status, success and message checks pass the whole
result is isValid true with empty errors and warnings. -/
theorem validateLoginResponse_falsy_data (parseDate : JSValue → Option Int)
    (now status : Int) (body eu : JSValue)
    (hdf : hasField body "data" = true)
    (hdt : (getField body "data").truthy = false) :
    (validateLoginResponse parseDate now ⟨status, body⟩ eu).errors =
        statusErrors status ++ missingFieldErrors body ++ successErrors body ++
          messageErrors body ∧
    "Missing required field: data" ∉
        (validateLoginResponse parseDate now ⟨status, body⟩ eu).errors ∧
    (validateLoginResponse parseDate now ⟨status, body⟩ eu).warnings = [] ∧
    (status = 200 → getField body "success" = .vBool true →
      hasField body "success" = true → hasField body "message" = true →
      (∃ m, getField body "message" = .vStr m ∧ jsTrim m ≠ "") →
      validateLoginResponse parseDate now ⟨status, body⟩ eu = ⟨true, [], []⟩) := by
  have herr : (validateLoginResponse parseDate now ⟨status, body⟩ eu).errors =
      statusErrors status ++ missingFieldErrors body ++ successErrors body ++
        messageErrors body := by
    simp [validateLoginResponse, hdt]
  have hwarn : (validateLoginResponse parseDate now ⟨status, body⟩ eu).warnings = [] := by
    simp [validateLoginResponse, hdt]
  refine ⟨herr, ?_, hwarn, ?_⟩
  · rw [herr]
    intro hmem
    rcases List.mem_append.mp hmem with h123 | h4
    · rcases List.mem_append.mp h123 with h12 | h3
      · rcases List.mem_append.mp h12 with h1 | h2
        · obtain ⟨s, hs⟩ := mem_statusErrors status _ h1
          exact statusError_ne_missing_data s hs.symm
        · exact missing_data_not_mem body hdf h2
      · obtain ⟨s, hs⟩ := mem_successErrors body _ h3
        exact successError_ne_missing_data s hs.symm
    · have hx := mem_messageErrors body _ h4
      revert hx
      decide
  · rintro hst hsv hsf hmf ⟨m, hmv, hmt⟩
    subst hst
    have e1 : statusErrors 200 = [] := rfl
    have e2 := missingFieldErrors_eq_nil body hsf hmf hdf
    have e3 := successErrors_eq_nil body hsv
    have e4 := messageErrors_eq_nil body m hmv hmt
    simp [validateLoginResponse, hdt, e1, e2, e3, e4]

/-- C8 witness: a body whose data key holds null, with passing status,
success and message checks, validates to isValid true with empty
errors and warnings. -/
theorem validateLoginResponse_falsy_data_witness :
    hasField (JSValue.vObj
        [("success", .vBool true), ("message", .vStr "ok"), ("data", .vNull)]) "data" =
      true ∧
    (getField (JSValue.vObj
        [("success", .vBool true), ("message", .vStr "ok"), ("data", .vNull)])
        "data").truthy = false ∧
    ((validateLoginResponse (fun _ => none) 0
        ⟨200, JSValue.vObj
          [("success", .vBool true), ("message", .vStr "ok"), ("data", .vNull)]⟩
        .vNull).errors =
      statusErrors 200 ++
        missingFieldErrors (JSValue.vObj
          [("success", .vBool true), ("message", .vStr "ok"), ("data", .vNull)]) ++
        successErrors (JSValue.vObj
          [("success", .vBool true), ("message", .vStr "ok"), ("data", .vNull)]) ++
        messageErrors (JSValue.vObj
          [("success", .vBool true), ("message", .vStr "ok"), ("data", .vNull)]) ∧
    "Missing required field: data" ∉
      (validateLoginResponse (fun _ => none) 0
        ⟨200, JSValue.vObj
          [("success", .vBool true), ("message", .vStr "ok"), ("data", .vNull)]⟩
        .vNull).errors ∧
    (validateLoginResponse (fun _ => none) 0
        ⟨200, JSValue.vObj
          [("success", .vBool true), ("message", .vStr "ok"), ("data", .vNull)]⟩
        .vNull).warnings = [] ∧
    ((200 : Int) = 200 →
      getField (JSValue.vObj
        [("success", .vBool true), ("message", .vStr "ok"), ("data", .vNull)])
        "success" = .vBool true →
      hasField (JSValue.vObj
        [("success", .vBool true), ("message", .vStr "ok"), ("data", .vNull)])
        "success" = true →
      hasField (JSValue.vObj
        [("success", .vBool true), ("message", .vStr "ok"), ("data", .vNull)])
        "message" = true →
      (∃ m, getField (JSValue.vObj
        [("success", .vBool true), ("message", .vStr "ok"), ("data", .vNull)])
        "message" = .vStr m ∧ jsTrim m ≠ "") →
      validateLoginResponse (fun _ => none) 0
        ⟨200, JSValue.vObj
          [("success", .vBool true), ("message", .vStr "ok"), ("data", .vNull)]⟩
        .vNull = ⟨true, [], []⟩)) :=
  ⟨rfl, rfl,
    validateLoginResponse_falsy_data (fun _ => none) 0 200
      (JSValue.vObj [("success", .vBool true), ("message", .vStr "ok"), ("data", .vNull)])
      .vNull rfl rfl⟩

theorem mem_ite_singleton {α : Type} (a x : α) (c : Bool) :
    (a ∈ (if c = true then [x] else [])) ↔ (c = true ∧ a = x) := by
  cases c <;> simp

/-- C9: fillContactForm invokes a helper for a text-like field exactly
when that value is truthy (so an absent field or an empty string
triggers no fill call), while the two checkbox fields are acted on
exactly when they are not strictly undefined. -/
theorem fillContactForm_truthy_gating (d : ContactData) :
    (FormAction.fillFirstName d.firstName ∈ ContactPage.fillContactForm d ↔
      d.firstName.truthy = true) ∧
    (FormAction.fillLastName d.lastName ∈ ContactPage.fillContactForm d ↔
      d.lastName.truthy = true) ∧
    (FormAction.fillEmail d.email ∈ ContactPage.fillContactForm d ↔
      d.email.truthy = true) ∧
    (FormAction.fillPhone d.phone ∈ ContactPage.fillContactForm d ↔
      d.phone.truthy = true) ∧
    (FormAction.fillSubject d.subject ∈ ContactPage.fillContactForm d ↔
      d.subject.truthy = true) ∧
    (FormAction.fillMessage d.message ∈ ContactPage.fillContactForm d ↔
      d.message.truthy = true) ∧
    (FormAction.selectInquiryType d.inquiryType ∈ ContactPage.fillContactForm d ↔
      d.inquiryType.truthy = true) ∧
    (FormAction.uploadAttachment d.attachment ∈ ContactPage.fillContactForm d ↔
      d.attachment.truthy = true) ∧
    (FormAction.checkPrivacyPolicy d.acceptPrivacy ∈ ContactPage.fillContactForm d ↔
      jsEq d.acceptPrivacy .vUndefined = false) ∧
    (FormAction.checkNewsletter d.subscribeNewsletter ∈ ContactPage.fillContactForm d ↔
      jsEq d.subscribeNewsletter .vUndefined = false) := by
  unfold ContactPage.fillContactForm
  refine ⟨?_, ?_, ?_, ?_, ?_, ?_, ?_, ?_, ?_, ?_⟩ <;>
    simp [mem_ite_singleton, Bool.not_eq_true']

/-- C10: a userType outside the keys of the fixture record falls back to the
validUser record, and an env outside the keys of the environments record
falls back to the dev configuration. -/
theorem fixture_lookup_defaults (userType env : String)
    (hu : userType ∉ ["validUser", "invalidUser", "adminUser", "emptyCredentials"])
    (he : env ∉ ["dev", "staging", "production"]) :
    getUserCredentials userType = validUserCreds ∧
    getEnvironmentConfig env = devConfig := by
  simp only [List.mem_cons, List.mem_singleton, not_or, List.not_mem_nil] at hu he
  obtain ⟨hu1, hu2, hu3, hu4, -⟩ := hu
  obtain ⟨he1, he2, he3, -⟩ := he
  have b1 : ("validUser" == userType) = false := beq_eq_false_iff_ne.mpr (Ne.symm hu1)
  have b2 : ("invalidUser" == userType) = false := beq_eq_false_iff_ne.mpr (Ne.symm hu2)
  have b3 : ("adminUser" == userType) = false := beq_eq_false_iff_ne.mpr (Ne.symm hu3)
  have b4 : ("emptyCredentials" == userType) = false :=
    beq_eq_false_iff_ne.mpr (Ne.symm hu4)
  have c1 : ("dev" == env) = false := beq_eq_false_iff_ne.mpr (Ne.symm he1)
  have c2 : ("staging" == env) = false := beq_eq_false_iff_ne.mpr (Ne.symm he2)
  have c3 : ("production" == env) = false := beq_eq_false_iff_ne.mpr (Ne.symm he3)
  have k1 : getField testUsers userType = .vUndefined := by
    simp [getField, testUsers, fieldsFind, b1, b2, b3, b4]
  have k2 : getField environments env = .vUndefined := by
    simp [getField, environments, fieldsFind, c1, c2, c3]
  constructor
  · simp [getUserCredentials, k1, JSValue.truthy]
    rfl
  · simp [getEnvironmentConfig, k2, JSValue.truthy]
    rfl

/-- C10 witness: the lookups applied to keys outside both records. -/
theorem fixture_lookup_defaults_witness :
    "guest" ∉ ["validUser", "invalidUser", "adminUser", "emptyCredentials"] ∧
    "qa" ∉ ["dev", "staging", "production"] ∧
    (getUserCredentials "guest" = validUserCreds ∧
      getEnvironmentConfig "qa" = devConfig) :=
  ⟨by decide, by decide, fixture_lookup_defaults "guest" "qa" (by decide) (by decide)⟩
